import Mathlib

/-!
Verification of the AI Game Tester repository against its specification.

The repository is a game-testing automation system: a FastAPI backend
(session controller, coverage tracker, crash detector, metrics collector)
driven by a React frontend.  The backend Python sources are not present in
this checkout (only their documentation, tests descriptions and the frontend
callers are), so the backend components are modelled from the specification,
as marked on each definition.  The frontend JavaScript (services/api.js,
utils/auth.js, the Login component) is present and is embedded directly.

Modelling conventions: observations and fingerprints are natural numbers;
the perceptual-hash function is an explicit parameter; timestamps, floats
(fps, reward_mean) and wall-clock durations are carried as inert numeric
fields since no claim depends on their arithmetic; concurrency is modelled
as arbitrary interleaving of the atomic operations the specification
mandates (the process-wide status cell is claimed by an atomic
compare-and-set, so every concurrent execution is equivalent to some
serialization of those atomic events).
-/

namespace AIGameTester

/-- Modelled from the spec: the session status state machine of the backend
session controller (backend/rl_controller.py, missing from this checkout).
The transient Completing/Erroring statuses of section 4.1 are absorbed into
their terminal successors because finalization is atomic at the granularity
of the event model; the spec invariant in section 3 names only
Starting/Training/Stopping as non-terminal. -/
inductive Status where
  | Idle
  | Starting
  | Training
  | Stopping
  | Stopped
  | Completed
  | Error
deriving DecidableEq, Repr

/-- Modelled from the spec: a status is non-terminal when it is one of
Starting, Training, Stopping (section 3 invariant). -/
def nonTerminal : Status → Bool
  | Status.Starting => true
  | Status.Training => true
  | Status.Stopping => true
  | _ => false

/-- Modelled from the spec: start is allowed exactly from
Idle, Stopped, Completed, Error (section 4.1). -/
def canStart : Status → Bool
  | Status.Idle => true
  | Status.Stopped => true
  | Status.Completed => true
  | Status.Error => true
  | _ => false

/-- Modelled from the spec: the error taxonomy of section 7 that the
session-control surface can raise. -/
inductive ApiErr where
  | SessionAlreadyRunningError
  | InvalidGenreError
  | SessionNotRunningError
  | InvalidStateError
deriving DecidableEq, Repr

/-- Modelled from the spec: the MetricsSnapshot record of section 3.
fps and reward_mean are carried as natural-number fields because no claim
depends on their (floating-point) arithmetic. -/
structure Snap where
  coverage : Nat
  crashes : Nat
  fps : Nat
  current_algorithm : String
  status : Status
  total_steps : Nat
  reward_mean : Nat
  window_focused : Bool
  error_log : Option String
deriving DecidableEq, Repr

/-- Modelled from the spec: the default Idle snapshot returned before any
session has run (sections 4.7 and 6). -/
def idleSnap : Snap :=
  ⟨0, 0, 0, "None", Status.Idle, 0, 0, false, none⟩

/-- Modelled from the spec: one Session record (section 3); the fields not
needed by any claim (timestamps, algorithm) are omitted. -/
structure Session where
  id : Nat
  genre : String
  target : Option Nat
  status : Status
deriving DecidableEq, Repr

/-- Modelled from the spec: the process-wide controller state: the atomic
status cell, the error note, the log of every session ever created (current
session first) and the current published snapshot. -/
structure Ctrl where
  status : Status
  errorNote : Option String
  sessions : List Session
  nextId : Nat
  snapshot : Snap
deriving DecidableEq, Repr

/-- Modelled from the spec: the initial controller state: Idle, no session,
the default Idle snapshot. -/
def initCtrl : Ctrl :=
  ⟨Status.Idle, none, [], 0, idleSnap⟩

/-- Modelled from the spec: the fixed genre enumeration accepted by start
(sections 4.1 and 6). -/
def validGenres : List String :=
  ["platformer", "fps", "racing", "rpg"]

/-- Modelled from the spec: the 200 response body of the start and stop
operations. -/
structure OkResp where
  status : String
  message : String
deriving DecidableEq, Repr

/-- Modelled from the spec: update the atomic status cell and mirror the
new status into the current (head) session and the published snapshot;
the metrics aggregator publishes on every state transition (section 3). -/
def setStatus (st : Status) (c : Ctrl) : Ctrl :=
  { c with
    status := st
    sessions :=
      match c.sessions with
      | [] => []
      | s :: rest => { s with status := st } :: rest
    snapshot := { c.snapshot with status := st, error_log := c.errorNote } }

/-- Modelled from the spec: the start operation of the session controller
(section 4.1): it fails with SessionAlreadyRunningError when the current
status is not in Idle/Stopped/Completed/Error, then validates the genre
against the fixed enum failing with InvalidGenreError, then atomically
claims the slot (status becomes Starting), records a fresh session and
resets the published snapshot for the new run. -/
def start_test (genre : String) (target : Option Nat) (c : Ctrl) :
    Except ApiErr (OkResp × Ctrl) :=
  if !canStart c.status then
    Except.error ApiErr.SessionAlreadyRunningError
  else if genre ∉ validGenres then
    Except.error ApiErr.InvalidGenreError
  else
    Except.ok
      (⟨"success", "Test started"⟩,
       { status := Status.Starting
         errorNote := none
         sessions := ⟨c.nextId, genre, target, Status.Starting⟩ :: c.sessions
         nextId := c.nextId + 1
         snapshot := { idleSnap with status := Status.Starting } })

/-- Modelled from the spec: the stop operation (section 4.1): fails with
SessionNotRunningError unless the status is Training; otherwise requests
cooperative cancellation, which the event model renders as the
Training to Stopping transition. -/
def stop_test (c : Ctrl) : Except ApiErr (OkResp × Ctrl) :=
  if c.status = Status.Training then
    Except.ok (⟨"success", "Test stopping"⟩, setStatus Status.Stopping c)
  else
    Except.error ApiErr.SessionNotRunningError

/-- Modelled from the spec: the reset_status operation (section 4.1):
allowed from the terminal statuses Stopped, Completed, Error (and trivially
from Idle, where it is a no-op in effect, matching the idempotence property
of section 8); clears the error note, resets the snapshot to the Idle
default and returns to Idle.  Fails with InvalidStateError while a session
is active (in particular while Training). -/
def reset_status (c : Ctrl) : Except ApiErr Ctrl :=
  if canStart c.status then
    Except.ok { c with status := Status.Idle, errorNote := none, snapshot := idleSnap }
  else
    Except.error ApiErr.InvalidStateError

/-- Modelled from the spec: the metrics operation (section 6): a total read
of the current published snapshot; it can never fail. -/
def get_metrics (c : Ctrl) : Except ApiErr Snap :=
  Except.ok c.snapshot

/-- Modelled from the spec: the atomic events of the controller and of the
background interaction loop; every concurrent execution of API calls and
loop transitions is some interleaving of these (section 5). -/
inductive Ev where
  | startCall (genre : String) (target : Option Nat)
  | envResetOk
  | envResetFail (note : String)
  | stopCall
  | loopCancelled
  | loopFatal (note : String)
  | loopDone
  | resetCall
deriving DecidableEq, Repr

/-- Modelled from the spec: effect of one atomic event on the controller
state.  An API call whose precondition fails leaves the state unchanged
(the caller receives a structured error); a loop transition fires only
from the status that enables it. -/
def applyEv (e : Ev) (c : Ctrl) : Ctrl :=
  match e with
  | Ev.startCall g t =>
    match start_test g t c with
    | Except.ok (_, c2) => c2
    | Except.error _ => c
  | Ev.envResetOk =>
    if c.status = Status.Starting then setStatus Status.Training c else c
  | Ev.envResetFail n =>
    if c.status = Status.Starting then
      setStatus Status.Error { c with errorNote := some n }
    else c
  | Ev.stopCall =>
    match stop_test c with
    | Except.ok (_, c2) => c2
    | Except.error _ => c
  | Ev.loopCancelled =>
    if c.status = Status.Stopping then setStatus Status.Stopped c else c
  | Ev.loopFatal n =>
    if c.status = Status.Training then
      setStatus Status.Error { c with errorNote := some n }
    else c
  | Ev.loopDone =>
    if c.status = Status.Training then setStatus Status.Completed c else c
  | Ev.resetCall =>
    match reset_status c with
    | Except.ok c2 => c2
    | Except.error _ => c

/-- Modelled from the spec: run a sequence of atomic events from a state. -/
def runEvs (es : List Ev) (c : Ctrl) : Ctrl :=
  es.foldl (fun s e => applyEv e s) c

/-- Number of sessions whose recorded status is non-terminal. -/
def nonTermCount (c : Ctrl) : Nat :=
  (c.sessions.filter (fun s => nonTerminal s.status)).length

/-- Modelled from the spec: the coverage tracker (section 4.4, backend
component missing from this checkout): an append-only set of coverage
fingerprints plus the running unique-state count that the metrics report
as coverage.  Fingerprints are naturals; the perceptual hash is a
parameter of the operations. -/
structure CoverageTracker where
  seen : Finset Nat
  coverage : Nat
deriving DecidableEq

/-- Modelled from the spec: the tracker of a fresh session: empty set,
zero coverage. -/
def CoverageTracker.init : CoverageTracker :=
  ⟨∅, 0⟩

/-- Modelled from the spec: observe(observation) of section 4.4: compute
the fingerprint; if not already present insert it, bump the unique-state
count and return novel, else return not novel and leave the tracker
unchanged. -/
def CoverageTracker.observe (fp : Nat → Nat) (obs : Nat)
    (t : CoverageTracker) : Bool × CoverageTracker :=
  if fp obs ∈ t.seen then (false, t)
  else (true, ⟨insert (fp obs) t.seen, t.coverage + 1⟩)

/-- Modelled from the spec: feed a sequence of observations to the
tracker. -/
def runObserve (fp : Nat → Nat) (os : List Nat) (t : CoverageTracker) :
    CoverageTracker :=
  os.foldl (fun s o => (CoverageTracker.observe fp o s).2) t

/-- Modelled from the spec: the two kinds of CrashEvent (section 3).  The
step index, timestamp and note of a CrashEvent are environment-supplied
metadata no claim depends on and are not modelled. -/
inductive CrashKind where
  | crash
  | freeze
deriving DecidableEq, Repr

/-- Modelled from the spec: the hysteresis phases of the crash detector
(section 4.5). -/
inductive DetPhase where
  | Ok
  | Suspect
  | Freeze
  | Crash
deriving DecidableEq, Repr

/-- Modelled from the spec: crash detector state (section 4.5, backend
component missing from this checkout): hysteresis phase, the length of the
current run of consecutive identical frames, and the previous observation.
The configured threshold is a parameter of update. -/
structure CrashDetector where
  phase : DetPhase
  staleRun : Nat
  prev : Option Nat
deriving DecidableEq, Repr

/-- Modelled from the spec: a fresh detector: Ok, no frames seen. -/
def CrashDetector.init : CrashDetector :=
  ⟨DetPhase.Ok, 0, none⟩

/-- Modelled from the spec: the result of one detector update: whether the
session must end, and the crash events emitted by this update. -/
structure CrashResult where
  fatal : Bool
  events : List CrashKind
deriving DecidableEq, Repr

/-- Modelled from the spec: CrashDetector.update(observation, is_alive) of
section 4.5.  Liveness loss immediately emits one crash event, moves to
Crash and is fatal.  An observation identical to the immediately preceding
one extends the stale-frame run; when the run reaches the configured
threshold of consecutive identical frames the detector emits exactly one
freeze event, moves to Freeze and is fatal (the hysteresis property of
section 8 fixes this reading of the counter: N consecutive identical
observations with N the threshold emit exactly one freeze event, a single
repeat emits none).  A fresh frame resets the run and returns to Ok. -/
def CrashDetector.update (thr : Nat) (obs : Nat) (isAlive : Bool)
    (d : CrashDetector) : CrashResult × CrashDetector :=
  if !isAlive then
    (⟨true, [CrashKind.crash]⟩, ⟨DetPhase.Crash, d.staleRun, some obs⟩)
  else if d.prev = some obs then
    let n := d.staleRun + 1
    if n = thr then
      (⟨true, [CrashKind.freeze]⟩, ⟨DetPhase.Freeze, n, some obs⟩)
    else
      (⟨false, []⟩, ⟨DetPhase.Suspect, n, some obs⟩)
  else
    (⟨false, []⟩, ⟨DetPhase.Ok, 1, some obs⟩)

/-- Modelled from the spec: feed a sequence of (observation, is_alive)
samples to the detector, collecting every emitted crash event. -/
def runDet (thr : Nat) : List (Nat × Bool) → CrashDetector →
    List CrashKind × CrashDetector
  | [], d => ([], d)
  | (o, a) :: rest, d =>
    let r := CrashDetector.update thr o a d
    let r2 := runDet thr rest r.2
    (r.1.events ++ r2.1, r2.2)

/-- Modelled from the spec: one input sample of the environment interaction
loop (section 4.3): the next observation, the done flag of the environment
step, and the liveness probe. -/
structure StepIn where
  obs : Nat
  done : Bool
  isAlive : Bool
deriving DecidableEq, Repr

/-- Modelled from the spec: the state owned by the background interaction
loop (sections 4.3 and 5): the session status, the cooperative
cancellation flag, the loop-private tracker and detector, the step and
crash counters, the configured step budget, the error note and the last
published snapshot. -/
structure LoopSt where
  status : Status
  cancel : Bool
  tracker : CoverageTracker
  det : CrashDetector
  stepCount : Nat
  crashes : Nat
  stepBudget : Nat
  errorNote : Option String
  snapshot : Snap
deriving DecidableEq

/-- Modelled from the spec: publish a fresh MetricsSnapshot from the
current loop state (steps (j) of section 4.3 and section 4.7); the fields
no claim depends on are carried over from the previous snapshot. -/
def publish (st : LoopSt) : LoopSt :=
  { st with
    snapshot :=
      { st.snapshot with
        coverage := st.tracker.coverage
        crashes := st.crashes
        status := st.status
        total_steps := st.stepCount
        error_log := st.errorNote } }

/-- Modelled from the spec: loop finalization (section 4.1): set the final
status and error note and publish the final snapshot.  The history append
is not modelled (no claim depends on it). -/
def finalizeLoop (fin : Status) (note : Option String) (st : LoopSt) :
    LoopSt :=
  publish { st with status := fin, errorNote := note }

/-- Modelled from the spec: one step of the environment interaction loop
(section 4.3): while Training, check the cancellation flag first (exit as
Stopped); otherwise update the crash detector and the coverage tracker,
bump the counters, publish a snapshot, then exit as Error on a fatal crash
result or as Completed when the environment reports done or the step
budget is reached.  The policy act/learn and reward calls have no effect
on any claimed quantity and are not modelled. -/
def stepLoop (fp : Nat → Nat) (thr : Nat) (inp : StepIn) (st : LoopSt) :
    LoopSt :=
  if st.status ≠ Status.Training then st
  else if st.cancel then finalizeLoop Status.Stopped st.errorNote st
  else
    let cr := CrashDetector.update thr inp.obs inp.isAlive st.det
    let ob := CoverageTracker.observe fp inp.obs st.tracker
    let st2 : LoopSt :=
      { st with
        det := cr.2
        tracker := ob.2
        crashes := st.crashes + cr.1.events.length
        stepCount := st.stepCount + 1 }
    if cr.1.fatal then finalizeLoop Status.Error (some "fatal crash detected") st2
    else if inp.done || st2.stepCount ≥ st2.stepBudget then
      finalizeLoop Status.Completed st2.errorNote st2
    else publish st2

/-- Modelled from the spec: run the interaction loop over a sequence of
environment samples. -/
def runLoop (fp : Nat → Nat) (thr : Nat) (inps : List StepIn)
    (st : LoopSt) : LoopSt :=
  inps.foldl (fun s i => stepLoop fp thr i s) st

/-- Snapshot fields agree with the loop counters they are published from;
holds at every step boundary. -/
def Coherent (st : LoopSt) : Prop :=
  st.snapshot.coverage = st.tracker.coverage ∧
  st.snapshot.total_steps = st.stepCount ∧
  st.snapshot.crashes = st.crashes

/-- A registered user as stored under the registeredUsers key
(frontend: Login.jsx reads it, Register.jsx writes it).  The JSON parsing
of the stored array is external to the component and the list is modelled
as already parsed. -/
structure RegUser where
  username : String
  email : String
  password : String
deriving DecidableEq, Repr

/-- The login form state of the Login component (the three controlled
inputs of the username/email/password variant). -/
structure LoginForm where
  username : String
  email : String
  password : String
deriving DecidableEq, Repr

/-- The auth object the Login component writes on success. -/
structure AuthData where
  username : String
  email : String
  isAuthenticated : Bool
deriving DecidableEq, Repr

/-- The two browser stores for the auth key, as seen by the Login
component (values modelled as already serialized/deserialized). -/
structure AuthStores where
  localAuth : Option AuthData
  sessionAuth : Option AuthData
deriving DecidableEq, Repr

/-- Outcome of a login submission: an error message, or the auth object
passed to onLogin. -/
inductive LoginOutcome where
  | failed (msg : String)
  | success (auth : AuthData)
deriving DecidableEq, Repr

/-- True when every character of the string is whitespace, i.e. the
string trims to empty; this is how the component tests for a blank field
(JavaScript whitespace is approximated by Char.isWhitespace). -/
def isBlank (s : String) : Bool :=
  s.toList.all Char.isWhitespace

/-- Split a character list on every occurrence of a separator character,
as String.split does on the character class of the email regular
expression. -/
def splitOnChar (c : Char) : List Char → List (List Char)
  | [] => [[]]
  | x :: xs =>
    let r := splitOnChar c xs
    if x = c then [] :: r
    else
      match r with
      | [] => [[x]]
      | y :: ys => (x :: y) :: ys

/-- No character of the list is whitespace. -/
def noWsChars (cs : List Char) : Bool :=
  cs.all (fun ch => !ch.isWhitespace)

/-- Some dot occurs strictly inside the list (not first, not last). -/
def interiorDot (cs : List Char) : Bool :=
  (List.range cs.length).any (fun i =>
    decide (0 < i) && decide (i + 1 < cs.length) && (cs.getD i ' ' == '.'))

/-- The basic email test of the Login component: the anchored pattern
one-or-more non-space non-at, at sign, one-or-more non-space non-at, dot,
one-or-more non-space non-at.  A string matches exactly when it has a
single at sign, a non-empty local part, no whitespace, and a dot strictly
inside the domain part. -/
def emailOk (s : String) : Bool :=
  match splitOnChar '@' s.toList with
  | [l, r] => (!l.isEmpty) && noWsChars l && noWsChars r && interiorDot r
  | _ => false

/-- The user lookup of the Login component: first registered user whose
username or email equals the entered one and whose password equals the
entered password (exact, case-sensitive comparisons). -/
def findUser (users : List RegUser) (form : LoginForm) : Option RegUser :=
  users.find? (fun u =>
    (u.username == form.username || u.email == form.email) &&
    u.password == form.password)

/-- handleSubmit of the Login component (the three-field variant whose
handler spans the cited lines): blank-field check, email format check,
user lookup; on success build the auth object and write it to
localStorage when rememberMe is set, to sessionStorage otherwise; on any
failed check set an error message and leave both stores untouched. -/
def handleSubmit (users : List RegUser) (form : LoginForm)
    (rememberMe : Bool) (st : AuthStores) : LoginOutcome × AuthStores :=
  if isBlank form.username || isBlank form.email || isBlank form.password then
    (LoginOutcome.failed "Please fill in all fields", st)
  else if !emailOk form.email then
    (LoginOutcome.failed "Please enter a valid email address", st)
  else
    match findUser users form with
    | none => (LoginOutcome.failed "Invalid username/email or password", st)
    | some u =>
      let a : AuthData := ⟨u.username, u.email, true⟩
      (LoginOutcome.success a,
       if rememberMe then { st with localAuth := some a }
       else { st with sessionAuth := some a })

/-- A JavaScript JSON value, for the auth.js storage model. -/
inductive JVal where
  | jnull
  | jbool (b : Bool)
  | jnum (n : Int)
  | jstr (s : String)
  | jarr (xs : List JVal)
  | jobj (fields : List (String × JVal))

/-- JavaScript truthiness of a JSON value. -/
def jTruthy : JVal → Bool
  | JVal.jnull => false
  | JVal.jbool b => b
  | JVal.jnum n => decide (n ≠ 0)
  | JVal.jstr s => !s.isEmpty
  | JVal.jarr _ => true
  | JVal.jobj _ => true

/-- Property read on a JSON value: the last binding of the field on an
object (matching JSON.parse duplicate-key behaviour), nothing otherwise
(undefined in JavaScript; the guarded uses never read a property of null). -/
def jField (name : String) : JVal → Option JVal
  | JVal.jobj fields =>
    ((fields.filter (fun p => p.fst == name)).map Prod.snd).getLast?
  | _ => none

/-- Whether an optional property value is exactly the boolean true, as the
strict triple-equal comparison of auth.js tests. -/
def jIsTrue : Option JVal → Bool
  | some (JVal.jbool b) => b
  | _ => false

/-- One try/catch block of getAuth over one store cell: a missing value or
an empty string (falsy) is skipped and left in place; a non-empty value is
parsed, returning it on success and removing it from the store on a parse
failure.  JSON.parse is a parameter; a parse result of none models the
thrown SyntaxError, caught by the block. -/
def tryStore (parse : String → Option JVal) :
    Option String → Option JVal × Option String
  | none => (none, none)
  | some s =>
    if s.isEmpty then (none, some s)
    else
      match parse s with
      | some v => (some v, some s)
      | none => (none, none)

/-- getAuth of auth.js: consult the localStorage auth entry first, then
the sessionStorage one, removing whichever non-empty entry fails to parse;
return the first parsed value, or null when no store yields one.  Result:
the returned value and the two store cells after the call. -/
def getAuth (parse : String → Option JVal) (loc ses : Option String) :
    JVal × Option String × Option String :=
  match tryStore parse loc with
  | (some v, loc2) => (v, loc2, ses)
  | (none, loc2) =>
    match tryStore parse ses with
    | (some v, ses2) => (v, loc2, ses2)
    | (none, ses2) => (JVal.jnull, loc2, ses2)

/-- isAuthenticated of auth.js: the value getAuth returns is truthy and
its isAuthenticated property is strictly the boolean true. -/
def isAuthenticated (parse : String → Option JVal)
    (loc ses : Option String) : Bool :=
  let v := (getAuth parse loc ses).1
  jTruthy v && jIsTrue (jField "isAuthenticated" v)

/-- The first stored auth entry that the guarded parse accepts: the value
of the localStorage entry when it is non-empty and parses, else that of
the sessionStorage entry under the same conditions. -/
def firstParsed (parse : String → Option JVal) (loc ses : Option String) :
    Option JVal :=
  match tryStore parse loc with
  | (some v, _) => some v
  | (none, _) => (tryStore parse ses).1

/-- Whether a login outcome is a success. -/
def LoginOutcome.isSuccess : LoginOutcome → Bool
  | LoginOutcome.success _ => true
  | LoginOutcome.failed _ => false

/-- Registered-user list of the C9 counterexample: one user. -/
def cexUsers : List RegUser :=
  [⟨"bob", "a@b.c", "p"⟩]

/-- Login form of the C9 counterexample: a whitespace (non-empty) username
with the valid email and password of the registered user. -/
def cexForm : LoginForm :=
  ⟨" ", "a@b.c", "p"⟩

/-- A parse function on which every string fails, as JSON.parse does on
the empty string. -/
def parseNone : String → Option JVal :=
  fun _ => none

/-- A parse function accepting exactly one specific auth payload, for
concrete evaluations. -/
def parseW : String → Option JVal :=
  fun s =>
    if s = "ok" then some (JVal.jobj [("isAuthenticated", JVal.jbool true)])
    else none

/-- Controller well-formedness: every session but the current (head) one is
terminal, and a non-terminal head session carries the status of the
process-wide cell. -/
def CtrlInv (c : Ctrl) : Prop :=
  (∀ s ∈ c.sessions.tail, nonTerminal s.status = false) ∧
  (∀ s, c.sessions.head? = some s → nonTerminal s.status = true →
    s.status = c.status)

lemma canStart_not_nonTerminal (st : Status) :
    canStart st = true → nonTerminal st = false := by
  cases st <;> simp [canStart, nonTerminal]

/-- C2: the start operation, called with a genre and an optional target,
returns a success response exactly when the genre is in the fixed enum and
no session is active; with an active session it fails with
SessionAlreadyRunningError (checked first), and with an inactive session
and a genre outside the enum it fails with InvalidGenreError. -/
theorem start_test_validation (c : Ctrl) (g : String) (t : Option Nat) :
    (canStart c.status = false →
      start_test g t c = Except.error ApiErr.SessionAlreadyRunningError) ∧
    (canStart c.status = true → g ∉ validGenres →
      start_test g t c = Except.error ApiErr.InvalidGenreError) ∧
    (canStart c.status = true → g ∈ validGenres →
      (start_test g t c).isOk = true ∧
      (∀ r c2, start_test g t c = Except.ok (r, c2) →
        r.status = "success" ∧ c2.status = Status.Starting)) := by
  refine ⟨fun h => ?_, fun h1 h2 => ?_, fun h1 h2 => ?_⟩
  · simp [start_test, h]
  · simp [start_test, h1, h2]
  · refine ⟨by simp [start_test, h1, h2, Except.isOk, Except.toBool], ?_⟩
    intro r c2 hr
    simp [start_test, h1, h2] at hr
    obtain ⟨hr1, hr2⟩ := hr
    subst hr1
    subst hr2
    exact ⟨rfl, rfl⟩

/-- Witness for C2 at the initial state and a valid genre. -/
theorem start_test_validation_witness :
    canStart initCtrl.status = true ∧
    "platformer" ∈ validGenres ∧
    (start_test "platformer" none initCtrl).isOk = true :=
  ⟨rfl, by decide,
    ((start_test_validation initCtrl "platformer" none).2.2 rfl (by decide)).1⟩

/-- C3: the metrics operation is total: in every controller state it
returns a snapshot and never an error, and in the initial state (before
any session has run) it returns the default Idle snapshot. -/
theorem metrics_always_succeeds :
    (∀ c : Ctrl, (get_metrics c).isOk = true) ∧
    get_metrics initCtrl =
      Except.ok ⟨0, 0, 0, "None", Status.Idle, 0, 0, false, none⟩ := by
  exact ⟨fun c => rfl, rfl⟩

/-- C8: reset_status from any terminal status yields Idle with the error
note cleared, a second consecutive call is a no-op in effect (it succeeds
and returns the very same Idle state), and reset_status while Training
fails with InvalidStateError. -/
theorem reset_status_idempotent :
    (∀ c : Ctrl,
      (c.status = Status.Stopped ∨ c.status = Status.Completed ∨
        c.status = Status.Error) →
      reset_status c = Except.ok
        { c with status := Status.Idle, errorNote := none, snapshot := idleSnap } ∧
      reset_status
        { c with status := Status.Idle, errorNote := none, snapshot := idleSnap } =
        Except.ok
          { c with status := Status.Idle, errorNote := none, snapshot := idleSnap }) ∧
    (∀ c : Ctrl, c.status = Status.Training →
      reset_status c = Except.error ApiErr.InvalidStateError) := by
  constructor
  · intro c h
    rcases h with h | h | h <;> simp [reset_status, canStart, h]
  · intro c h
    simp [reset_status, canStart, h]

/-- Witness for C8 from a concrete Stopped state. -/
theorem reset_status_idempotent_witness :
    reset_status
      { initCtrl with status := Status.Stopped, errorNote := some "boom" } =
      Except.ok
        { { initCtrl with status := Status.Stopped, errorNote := some "boom" } with
          status := Status.Idle, errorNote := none, snapshot := idleSnap } ∧
    reset_status { initCtrl with status := Status.Training } =
      Except.error ApiErr.InvalidStateError :=
  ⟨((reset_status_idempotent).1
      { initCtrl with status := Status.Stopped, errorNote := some "boom" }
      (Or.inl rfl)).1,
   (reset_status_idempotent).2 { initCtrl with status := Status.Training } rfl⟩

lemma ctrlInv_init : CtrlInv initCtrl := by
  constructor
  · intro s hs; simp [initCtrl] at hs
  · intro s hs; simp [initCtrl] at hs

lemma ctrlInv_setStatus (st : Status) (c : Ctrl) (h : CtrlInv c) :
    CtrlInv (setStatus st c) := by
  obtain ⟨ht, hh⟩ := h
  constructor
  · intro s hs
    apply ht
    cases hc : c.sessions with
    | nil => simp [setStatus, hc] at hs
    | cons a rest => simp [setStatus, hc] at hs ⊢; exact hs
  · intro s hs _
    cases hc : c.sessions with
    | nil => simp [setStatus, hc] at hs
    | cons a rest =>
      simp [setStatus, hc] at hs
      subst hs
      rfl

lemma ctrlInv_errorNote (c : Ctrl) (n : Option String) (h : CtrlInv c) :
    CtrlInv { c with errorNote := n } := by
  obtain ⟨ht, hh⟩ := h
  exact ⟨ht, hh⟩

lemma ctrlInv_applyEv (e : Ev) (c : Ctrl) (h : CtrlInv c) :
    CtrlInv (applyEv e c) := by
  obtain ⟨ht, hh⟩ := h
  cases e with
  | startCall g t =>
    by_cases hcs : canStart c.status = true
    · by_cases hg : g ∈ validGenres
      · have heq : applyEv (Ev.startCall g t) c =
          { status := Status.Starting, errorNote := none,
            sessions := ⟨c.nextId, g, t, Status.Starting⟩ :: c.sessions,
            nextId := c.nextId + 1,
            snapshot := { idleSnap with status := Status.Starting } } := by
          simp [applyEv, start_test, hcs, hg]
        rw [heq]
        constructor
        · intro s hs
          simp at hs
          rcases hsl : c.sessions with _ | ⟨a, rest⟩
          · rw [hsl] at hs; simp at hs
          · rw [hsl] at hs
            rw [List.mem_cons] at hs
            rcases hs with hs | hs
            · subst hs
              by_contra hnt
              simp only [Bool.not_eq_false] at hnt
              have hsc := hh s (by rw [hsl]; rfl) hnt
              have h2 := canStart_not_nonTerminal c.status hcs
              rw [hsc] at hnt
              rw [hnt] at h2
              cases h2
            · have hmem : s ∈ c.sessions.tail := by rw [hsl]; exact hs
              exact ht s hmem
        · intro s hs _
          simp at hs
          subst hs
          rfl
      · have heq : applyEv (Ev.startCall g t) c = c := by
          simp [applyEv, start_test, hcs, hg]
        rw [heq]; exact ⟨ht, hh⟩
    · have heq : applyEv (Ev.startCall g t) c = c := by
        simp [applyEv, start_test, hcs]
      rw [heq]; exact ⟨ht, hh⟩
  | envResetOk =>
    simp only [applyEv]
    split
    · exact ctrlInv_setStatus _ _ ⟨ht, hh⟩
    · exact ⟨ht, hh⟩
  | envResetFail n =>
    simp only [applyEv]
    split
    · exact ctrlInv_setStatus _ _ (ctrlInv_errorNote _ _ ⟨ht, hh⟩)
    · exact ⟨ht, hh⟩
  | stopCall =>
    by_cases htr : c.status = Status.Training
    · have heq : applyEv Ev.stopCall c = setStatus Status.Stopping c := by
        simp [applyEv, stop_test, htr]
      rw [heq]; exact ctrlInv_setStatus _ _ ⟨ht, hh⟩
    · have heq : applyEv Ev.stopCall c = c := by
        simp [applyEv, stop_test, htr]
      rw [heq]; exact ⟨ht, hh⟩
  | loopCancelled =>
    simp only [applyEv]
    split
    · exact ctrlInv_setStatus _ _ ⟨ht, hh⟩
    · exact ⟨ht, hh⟩
  | loopFatal n =>
    simp only [applyEv]
    split
    · exact ctrlInv_setStatus _ _ (ctrlInv_errorNote _ _ ⟨ht, hh⟩)
    · exact ⟨ht, hh⟩
  | loopDone =>
    simp only [applyEv]
    split
    · exact ctrlInv_setStatus _ _ ⟨ht, hh⟩
    · exact ⟨ht, hh⟩
  | resetCall =>
    by_cases hcs : canStart c.status = true
    · have heq : applyEv Ev.resetCall c =
        { c with status := Status.Idle, errorNote := none, snapshot := idleSnap } := by
        simp [applyEv, reset_status, hcs]
      rw [heq]
      constructor
      · intro s hs; exact ht s hs
      · intro s hs hnt
        exfalso
        have hsc := hh s hs hnt
        have h2 := canStart_not_nonTerminal c.status hcs
        rw [hsc] at hnt
        rw [hnt] at h2
        cases h2
    · have heq : applyEv Ev.resetCall c = c := by
        simp [applyEv, reset_status, hcs]
      rw [heq]; exact ⟨ht, hh⟩

lemma ctrlInv_runEvs (es : List Ev) :
    ∀ c : Ctrl, CtrlInv c → CtrlInv (runEvs es c) := by
  induction es with
  | nil => intro c h; exact h
  | cons e rest ih =>
    intro c h
    have : runEvs (e :: rest) c = runEvs rest (applyEv e c) := rfl
    rw [this]
    exact ih _ (ctrlInv_applyEv e c h)

lemma ctrlInv_count (c : Ctrl) (h : CtrlInv c) : nonTermCount c ≤ 1 := by
  obtain ⟨ht, _⟩ := h
  unfold nonTermCount
  cases hsl : c.sessions with
  | nil => simp
  | cons a rest =>
    have hrest : rest.filter (fun s => nonTerminal s.status) = [] := by
      apply List.filter_eq_nil_iff.mpr
      intro s hs
      have := ht s (by rw [hsl]; exact hs)
      simp [this]
    rw [List.filter_cons]
    split
    · simp [hrest]
    · simp [hrest]

/-- C1: over every interleaving of start/stop calls and loop transitions
(two concurrent start calls are the two serializations of the atomic slot
claim), at most one session ever has a non-terminal status; moreover from
any startable state, of two racing start calls the first serialized one
succeeds with a success response and the second fails with
SessionAlreadyRunningError, the session log growing by exactly one record
(no duplicate or corrupted session). -/
theorem at_most_one_active_session :
    (∀ es : List Ev, nonTermCount (runEvs es initCtrl) ≤ 1) ∧
    (∀ (c : Ctrl) (g1 g2 : String) (t1 t2 : Option Nat),
      canStart c.status = true → g1 ∈ validGenres → g2 ∈ validGenres →
      (start_test g1 t1 c).isOk = true ∧
      (∀ r1 c1, start_test g1 t1 c = Except.ok (r1, c1) →
        r1.status = "success" ∧
        start_test g2 t2 c1 = Except.error ApiErr.SessionAlreadyRunningError ∧
        c1.sessions.length = c.sessions.length + 1)) := by
  constructor
  · intro es
    exact ctrlInv_count _ (ctrlInv_runEvs es initCtrl ctrlInv_init)
  · intro c g1 g2 t1 t2 hcs hg1 hg2
    constructor
    · simp [start_test, hcs, hg1, Except.isOk, Except.toBool]
    · intro r1 c1 hr
      simp [start_test, hcs, hg1] at hr
      obtain ⟨hr1, hr2⟩ := hr
      subst hr1
      subst hr2
      refine ⟨rfl, ?_, ?_⟩
      · simp [start_test, canStart]
      · simp

/-- Witness for C1: the racing-start conclusion applied at the initial
state with the genres of Scenario B. -/
theorem at_most_one_active_session_witness :
    canStart initCtrl.status = true ∧
    (start_test "racing" none initCtrl).isOk = true :=
  ⟨rfl,
    ((at_most_one_active_session).2 initCtrl "racing" "fps" none none rfl
      (by decide) (by decide)).1⟩

lemma runObserve_cons (fp : Nat → Nat) (o : Nat) (os : List Nat)
    (t : CoverageTracker) :
    runObserve fp (o :: os) t =
      runObserve fp os (CoverageTracker.observe fp o t).2 := rfl

lemma observe_card (fp : Nat → Nat) (o : Nat) (t : CoverageTracker)
    (h : t.coverage = t.seen.card) :
    (CoverageTracker.observe fp o t).2.coverage =
      (CoverageTracker.observe fp o t).2.seen.card := by
  unfold CoverageTracker.observe
  by_cases hm : fp o ∈ t.seen
  · simp [hm, h]
  · simp [hm, h, Finset.card_insert_of_not_mem hm]

lemma runObserve_card (fp : Nat → Nat) (os : List Nat) :
    ∀ t : CoverageTracker, t.coverage = t.seen.card →
      (runObserve fp os t).coverage = (runObserve fp os t).seen.card := by
  induction os with
  | nil => intro t h; exact h
  | cons o os ih =>
    intro t h
    rw [runObserve_cons]
    exact ih _ (observe_card fp o t h)

/-- C4: for every sequence of observations fed to the coverage tracker of
one session: an observation whose fingerprint is not yet in the set
inserts it, bumps coverage and reports novel; an observation whose
fingerprint is already present reports not novel and changes nothing; and
after any sequence, coverage equals the cardinality of the fingerprint
set. -/
theorem observe_dedup_coverage (fp : Nat → Nat) (pre : List Nat) (o : Nat) :
    (fp o ∉ (runObserve fp pre CoverageTracker.init).seen →
      (CoverageTracker.observe fp o (runObserve fp pre CoverageTracker.init)).1 = true ∧
      (CoverageTracker.observe fp o (runObserve fp pre CoverageTracker.init)).2.seen =
        insert (fp o) (runObserve fp pre CoverageTracker.init).seen ∧
      (CoverageTracker.observe fp o (runObserve fp pre CoverageTracker.init)).2.coverage =
        (runObserve fp pre CoverageTracker.init).coverage + 1) ∧
    (fp o ∈ (runObserve fp pre CoverageTracker.init).seen →
      (CoverageTracker.observe fp o (runObserve fp pre CoverageTracker.init)).1 = false ∧
      (CoverageTracker.observe fp o (runObserve fp pre CoverageTracker.init)).2 =
        runObserve fp pre CoverageTracker.init) ∧
    (runObserve fp pre CoverageTracker.init).coverage =
      (runObserve fp pre CoverageTracker.init).seen.card := by
  refine ⟨fun hm => ?_, fun hm => ?_, ?_⟩
  · simp [CoverageTracker.observe, hm]
  · simp [CoverageTracker.observe, hm]
  · exact runObserve_card fp pre CoverageTracker.init rfl

/-- Witness for C4: fingerprint 5 is already present after observing it
once, so a second observation is not novel, and coverage matches the set
cardinality. -/
theorem observe_dedup_coverage_witness :
    (CoverageTracker.observe id 5 (runObserve id [5] CoverageTracker.init)).1 = false ∧
    (runObserve id [5] CoverageTracker.init).coverage =
      (runObserve id [5] CoverageTracker.init).seen.card :=
  ⟨((observe_dedup_coverage id [5] 5).2.1 (by decide)).1,
   (observe_dedup_coverage id [5] 5).2.2⟩

lemma runDet_cons (thr o : Nat) (a : Bool) (rest : List (Nat × Bool))
    (d : CrashDetector) :
    runDet thr ((o, a) :: rest) d =
      ((CrashDetector.update thr o a d).1.events ++
        (runDet thr rest (CrashDetector.update thr o a d).2).1,
       (runDet thr rest (CrashDetector.update thr o a d).2).2) := rfl

lemma runDet_stale (thr o : Nat) :
    ∀ (j m : Nat) (d : CrashDetector), d.prev = some o → d.staleRun = m →
      m + j < thr →
      (runDet thr (List.replicate j (o, true)) d).1 = [] ∧
      (runDet thr (List.replicate j (o, true)) d).2.staleRun = m + j ∧
      (runDet thr (List.replicate j (o, true)) d).2.prev = some o := by
  intro j
  induction j with
  | zero =>
    intro m d hp hm _
    exact ⟨rfl, by simp [runDet, hm], by simp [runDet, hp]⟩
  | succ j ih =>
    intro m d hp hm hlt
    have hne : ¬(m + 1 = thr) := by omega
    have hupd : CrashDetector.update thr o true d =
        (⟨false, []⟩, ⟨DetPhase.Suspect, m + 1, some o⟩) := by
      simp [CrashDetector.update, hp, hm, hne]
    rw [List.replicate_succ, runDet_cons, hupd]
    have hrec := ih (m + 1) ⟨DetPhase.Suspect, m + 1, some o⟩ rfl rfl (by omega)
    refine ⟨?_, ?_, ?_⟩
    · simp [hrec.1]
    · simp only
      rw [hrec.2.1]
      omega
    · simp only
      rw [hrec.2.2]

lemma runDet_append (thr : Nat) (l1 l2 : List (Nat × Bool)) :
    ∀ d : CrashDetector,
      (runDet thr (l1 ++ l2) d).1 =
        (runDet thr l1 d).1 ++ (runDet thr l2 (runDet thr l1 d).2).1 ∧
      (runDet thr (l1 ++ l2) d).2 = (runDet thr l2 (runDet thr l1 d).2).2 := by
  induction l1 with
  | nil => intro d; exact ⟨rfl, rfl⟩
  | cons x rest ih =>
    intro d
    obtain ⟨xo, xa⟩ := x
    rw [List.cons_append, runDet_cons, runDet_cons]
    have hrec := ih (CrashDetector.update thr xo xa d).2
    refine ⟨?_, ?_⟩
    · simp only
      rw [hrec.1, List.append_assoc]
    · simp only
      rw [hrec.2]

/-- C5: with is_alive always true, a single repeated observation (a run of
two identical frames from a detector whose previous frame differs) emits
no CrashEvent at all, while a run of exactly N identical frames, N being
the configured threshold, emits exactly one freeze CrashEvent and ends in
the Freeze phase; and every update that emits a freeze event marks its
result fatal. -/
theorem freeze_hysteresis (thr : Nat) (d : CrashDetector) (o : Nat)
    (h3 : 3 ≤ thr) (hp : d.prev ≠ some o) :
    (runDet thr (List.replicate 2 (o, true)) d).1 = [] ∧
    (runDet thr (List.replicate thr (o, true)) d).1 = [CrashKind.freeze] ∧
    (runDet thr (List.replicate thr (o, true)) d).2.phase = DetPhase.Freeze ∧
    (∀ d2 : CrashDetector,
      (CrashDetector.update thr o true d2).1.events = [CrashKind.freeze] →
      (CrashDetector.update thr o true d2).1.fatal = true) := by
  have hu1 : CrashDetector.update thr o true d =
      (⟨false, []⟩, ⟨DetPhase.Ok, 1, some o⟩) := by
    simp [CrashDetector.update, hp]
  have hne2 : ¬(1 + 1 = thr) := by omega
  have hu2 : CrashDetector.update thr o true ⟨DetPhase.Ok, 1, some o⟩ =
      (⟨false, []⟩, ⟨DetPhase.Suspect, 1 + 1, some o⟩) := by
    simp [CrashDetector.update, hne2]
  have hrep2 : List.replicate 2 (o, true) = [(o, true), (o, true)] := rfl
  refine ⟨?_, ?_, ?_, ?_⟩
  · rw [hrep2, runDet_cons, hu1]
    simp only
    rw [runDet_cons, hu2]
    rfl
  · rw [show List.replicate thr (o, true) =
        (o, true) :: List.replicate (thr - 1) (o, true) by
      conv_lhs => rw [show thr = thr - 1 + 1 by omega]
      rw [List.replicate_succ]]
    rw [runDet_cons, hu1]
    simp only
    rw [show List.replicate (thr - 1) (o, true) =
        List.replicate (thr - 2) (o, true) ++ [(o, true)] by
      conv_lhs => rw [show thr - 1 = thr - 2 + 1 by omega]
      rw [List.replicate_succ']]
    have hseg := runDet_append thr (List.replicate (thr - 2) (o, true))
      [(o, true)] ⟨DetPhase.Ok, 1, some o⟩
    have hst := runDet_stale thr o (thr - 2) 1 ⟨DetPhase.Ok, 1, some o⟩
      rfl rfl (by omega)
    have hu3 : CrashDetector.update thr o true
        (runDet thr (List.replicate (thr - 2) (o, true))
          ⟨DetPhase.Ok, 1, some o⟩).2 =
        (⟨true, [CrashKind.freeze]⟩, ⟨DetPhase.Freeze, thr, some o⟩) := by
      simp [CrashDetector.update, hst.2.2, hst.2.1, show 1 + (thr - 2) + 1 = thr by omega]
    rw [hseg.1, hst.1, runDet_cons, hu3]
    rfl
  · rw [show List.replicate thr (o, true) =
        (o, true) :: List.replicate (thr - 1) (o, true) by
      conv_lhs => rw [show thr = thr - 1 + 1 by omega]
      rw [List.replicate_succ]]
    rw [runDet_cons, hu1]
    simp only
    rw [show List.replicate (thr - 1) (o, true) =
        List.replicate (thr - 2) (o, true) ++ [(o, true)] by
      conv_lhs => rw [show thr - 1 = thr - 2 + 1 by omega]
      rw [List.replicate_succ']]
    have hseg := runDet_append thr (List.replicate (thr - 2) (o, true))
      [(o, true)] ⟨DetPhase.Ok, 1, some o⟩
    have hst := runDet_stale thr o (thr - 2) 1 ⟨DetPhase.Ok, 1, some o⟩
      rfl rfl (by omega)
    have hu3 : CrashDetector.update thr o true
        (runDet thr (List.replicate (thr - 2) (o, true))
          ⟨DetPhase.Ok, 1, some o⟩).2 =
        (⟨true, [CrashKind.freeze]⟩, ⟨DetPhase.Freeze, thr, some o⟩) := by
      simp [CrashDetector.update, hst.2.2, hst.2.1, show 1 + (thr - 2) + 1 = thr by omega]
    rw [hseg.2, runDet_cons, hu3]
    rfl
  · intro d2 h
    by_cases hp2 : d2.prev = some o
    · by_cases hn : d2.staleRun + 1 = thr
      · simp [CrashDetector.update, hp2, hn]
      · simp [CrashDetector.update, hp2, hn] at h
    · simp [CrashDetector.update, hp2] at h

/-- Witness for C5: threshold 3, fresh detector, constant observation 7. -/
theorem freeze_hysteresis_witness :
    (runDet 3 (List.replicate 2 (7, true)) CrashDetector.init).1 = [] ∧
    (runDet 3 (List.replicate 3 (7, true)) CrashDetector.init).1 =
      [CrashKind.freeze] :=
  ⟨(freeze_hysteresis 3 CrashDetector.init 7 (by decide) (by decide)).1,
   (freeze_hysteresis 3 CrashDetector.init 7 (by decide) (by decide)).2.1⟩

/-- C6: whenever the interaction loop runs a step (Training, cancellation
not requested) and the liveness probe reports dead, the detector emits
exactly one crash-type CrashEvent, moves to the Crash phase, the crash
counter rises by exactly one, and the loop finalizes with status Error,
published in the next snapshot. -/
theorem liveness_loss_error (fp : Nat → Nat) (thr : Nat) (st : LoopSt)
    (inp : StepIn) (hs : st.status = Status.Training) (hc : st.cancel = false)
    (ha : inp.isAlive = false) :
    (CrashDetector.update thr inp.obs inp.isAlive st.det).1.events =
      [CrashKind.crash] ∧
    (CrashDetector.update thr inp.obs inp.isAlive st.det).1.fatal = true ∧
    (stepLoop fp thr inp st).crashes = st.crashes + 1 ∧
    (stepLoop fp thr inp st).det.phase = DetPhase.Crash ∧
    (stepLoop fp thr inp st).status = Status.Error ∧
    (stepLoop fp thr inp st).snapshot.status = Status.Error ∧
    (stepLoop fp thr inp st).snapshot.crashes = st.crashes + 1 := by
  have hu : CrashDetector.update thr inp.obs inp.isAlive st.det =
      (⟨true, [CrashKind.crash]⟩,
       ⟨DetPhase.Crash, st.det.staleRun, some inp.obs⟩) := by
    simp [CrashDetector.update, ha]
  refine ⟨by rw [hu], by rw [hu], ?_, ?_, ?_, ?_, ?_⟩ <;>
    simp [stepLoop, hs, hc, hu, finalizeLoop, publish]

/-- Witness for C6: a concrete Training state with a dead liveness probe. -/
theorem liveness_loss_error_witness :
    (stepLoop id 10 ⟨4, false, false⟩
      ⟨Status.Training, false, CoverageTracker.init, CrashDetector.init,
        0, 0, 100, none, idleSnap⟩).snapshot.status = Status.Error :=
  (liveness_loss_error id 10
    ⟨Status.Training, false, CoverageTracker.init, CrashDetector.init,
      0, 0, 100, none, idleSnap⟩
    ⟨4, false, false⟩ rfl rfl rfl).2.2.2.2.2.1

lemma observe_coverage_le (fp : Nat → Nat) (o : Nat) (t : CoverageTracker) :
    t.coverage ≤ (CoverageTracker.observe fp o t).2.coverage := by
  unfold CoverageTracker.observe
  by_cases hm : fp o ∈ t.seen
  · simp [hm]
  · simp [hm]

lemma stepLoop_mono (fp : Nat → Nat) (thr : Nat) (inp : StepIn)
    (st : LoopSt) (h : Coherent st) :
    st.snapshot.coverage ≤ (stepLoop fp thr inp st).snapshot.coverage ∧
    st.snapshot.total_steps ≤ (stepLoop fp thr inp st).snapshot.total_steps ∧
    st.snapshot.crashes ≤ (stepLoop fp thr inp st).snapshot.crashes ∧
    Coherent (stepLoop fp thr inp st) := by
  obtain ⟨h1, h2, h3⟩ := h
  by_cases hs : st.status = Status.Training
  · by_cases hc : st.cancel = true
    · refine ⟨?_, ?_, ?_, ?_⟩ <;>
        simp [stepLoop, hs, hc, finalizeLoop, publish, Coherent, h1, h2, h3]
    · have hcov := observe_coverage_le fp inp.obs st.tracker
      by_cases hf : (CrashDetector.update thr inp.obs inp.isAlive st.det).1.fatal = true
      · refine ⟨?_, ?_, ?_, ?_⟩ <;>
          simp [stepLoop, hs, hc, hf, finalizeLoop, publish, Coherent, h1, h2, h3] <;>
          omega
      · by_cases hd : (inp.done || st.stepCount + 1 ≥ st.stepBudget) = true
        · refine ⟨?_, ?_, ?_, ?_⟩ <;>
            simp [stepLoop, hs, hc, hf, hd, finalizeLoop, publish, Coherent,
              h1, h2, h3] <;>
            omega
        · refine ⟨?_, ?_, ?_, ?_⟩ <;>
            simp [stepLoop, hs, hc, hf, hd, finalizeLoop, publish, Coherent,
              h1, h2, h3] <;>
            omega
  · refine ⟨?_, ?_, ?_, ?_⟩ <;> simp [stepLoop, hs, Coherent, h1, h2, h3]

lemma runLoop_cons (fp : Nat → Nat) (thr : Nat) (inp : StepIn)
    (inps : List StepIn) (st : LoopSt) :
    runLoop fp thr (inp :: inps) st =
      runLoop fp thr inps (stepLoop fp thr inp st) := rfl

lemma runLoop_mono (fp : Nat → Nat) (thr : Nat) (inps : List StepIn) :
    ∀ st : LoopSt, Coherent st →
      st.snapshot.coverage ≤ (runLoop fp thr inps st).snapshot.coverage ∧
      st.snapshot.total_steps ≤ (runLoop fp thr inps st).snapshot.total_steps ∧
      st.snapshot.crashes ≤ (runLoop fp thr inps st).snapshot.crashes ∧
      Coherent (runLoop fp thr inps st) := by
  induction inps with
  | nil => intro st h; exact ⟨le_refl _, le_refl _, le_refl _, h⟩
  | cons inp inps ih =>
    intro st h
    have hstep := stepLoop_mono fp thr inp st h
    have hrec := ih (stepLoop fp thr inp st) hstep.2.2.2
    rw [runLoop_cons]
    exact ⟨le_trans hstep.1 hrec.1, le_trans hstep.2.1 hrec.2.1,
      le_trans hstep.2.2.1 hrec.2.2.1, hrec.2.2.2⟩

/-- C7: within a session, the published coverage, total_steps and crashes
are monotonically non-decreasing: across one loop step and across any
sequence of loop steps starting from a coherent state (snapshot published
from the current counters), none of them ever decreases, and coherence is
preserved. -/
theorem metrics_monotone (fp : Nat → Nat) (thr : Nat) :
    (∀ (inp : StepIn) (st : LoopSt), Coherent st →
      st.snapshot.coverage ≤ (stepLoop fp thr inp st).snapshot.coverage ∧
      st.snapshot.total_steps ≤ (stepLoop fp thr inp st).snapshot.total_steps ∧
      st.snapshot.crashes ≤ (stepLoop fp thr inp st).snapshot.crashes ∧
      Coherent (stepLoop fp thr inp st)) ∧
    (∀ (inps : List StepIn) (st : LoopSt), Coherent st →
      st.snapshot.coverage ≤ (runLoop fp thr inps st).snapshot.coverage ∧
      st.snapshot.total_steps ≤ (runLoop fp thr inps st).snapshot.total_steps ∧
      st.snapshot.crashes ≤ (runLoop fp thr inps st).snapshot.crashes) :=
  ⟨fun inp st h => stepLoop_mono fp thr inp st h,
   fun inps st h =>
    ⟨(runLoop_mono fp thr inps st h).1, (runLoop_mono fp thr inps st h).2.1,
      (runLoop_mono fp thr inps st h).2.2.1⟩⟩

/-- Witness for C7: one step from a fresh coherent Training state. -/
theorem metrics_monotone_witness :
    Coherent
      ⟨Status.Training, false, CoverageTracker.init, CrashDetector.init,
        0, 0, 100, none, { idleSnap with status := Status.Training }⟩ ∧
    (⟨Status.Training, false, CoverageTracker.init, CrashDetector.init,
        0, 0, 100, none,
        { idleSnap with status := Status.Training }⟩ : LoopSt).snapshot.coverage ≤
      (stepLoop id 10 ⟨4, false, true⟩
        ⟨Status.Training, false, CoverageTracker.init, CrashDetector.init,
          0, 0, 100, none,
          { idleSnap with status := Status.Training }⟩).snapshot.coverage :=
  ⟨⟨rfl, rfl, rfl⟩,
   ((metrics_monotone id 10).1 ⟨4, false, true⟩
      ⟨Status.Training, false, CoverageTracker.init, CrashDetector.init,
        0, 0, 100, none, { idleSnap with status := Status.Training }⟩
      ⟨rfl, rfl, rfl⟩).1⟩

/-- C9, counterexample to the claim as stated: with entered username a
single space (a NON-empty string), the email and password of a registered
user, all three fields are non-empty, the email matches the pattern and a
stored user matches by email and password, yet the submission fails with
the fill-in-all-fields error and modifies no storage, because the
component tests the fields after trimming whitespace. -/
theorem login_claim_counterexample :
    cexForm.username ≠ "" ∧ cexForm.email ≠ "" ∧ cexForm.password ≠ "" ∧
    emailOk cexForm.email = true ∧
    (findUser cexUsers cexForm).isSome = true ∧
    (handleSubmit cexUsers cexForm false ⟨none, none⟩).1 =
      LoginOutcome.failed "Please fill in all fields" ∧
    (handleSubmit cexUsers cexForm false ⟨none, none⟩).2 = ⟨none, none⟩ := by
  decide

/-- C9 (amended): the login submission succeeds iff all three form fields
are non-blank (non-empty after trimming whitespace), the email matches the
basic email pattern, and some registered user matches by username or email
together with the password; on success the auth object has
isAuthenticated true and is written to localStorage when rememberMe is
set, to sessionStorage otherwise; on any failed check the stores are
untouched and a non-empty error message is set. -/
theorem handleSubmit_spec (users : List RegUser) (form : LoginForm)
    (rm : Bool) (st : AuthStores) :
    ((handleSubmit users form rm st).1.isSuccess = true ↔
      (isBlank form.username = false ∧ isBlank form.email = false ∧
       isBlank form.password = false ∧ emailOk form.email = true ∧
       (findUser users form).isSome = true)) ∧
    (∀ a, (handleSubmit users form rm st).1 = LoginOutcome.success a →
      a.isAuthenticated = true ∧
      (handleSubmit users form rm st).2 =
        (if rm then { st with localAuth := some a }
         else { st with sessionAuth := some a })) ∧
    (∀ m, (handleSubmit users form rm st).1 = LoginOutcome.failed m →
      (handleSubmit users form rm st).2 = st ∧ m ≠ "") := by
  by_cases hb : (isBlank form.username || isBlank form.email ||
      isBlank form.password) = true
  · have he : handleSubmit users form rm st =
        (LoginOutcome.failed "Please fill in all fields", st) := by
      simp [handleSubmit, hb]
    refine ⟨?_, ?_, ?_⟩
    · rw [he]
      simp only [LoginOutcome.isSuccess]
      constructor
      · intro h; simp at h
      · rintro ⟨r1, r2, r3, -, -⟩
        rw [r1, r2, r3] at hb
        simp at hb
    · intro a ha
      rw [he] at ha
      simp at ha
    · intro m hm
      rw [he] at hm
      simp only [LoginOutcome.failed.injEq] at hm
      subst hm
      rw [he]
      exact ⟨rfl, by decide⟩
  · have hb' : isBlank form.username = false ∧ isBlank form.email = false ∧
        isBlank form.password = false := by
      simp only [Bool.or_eq_true, not_or, Bool.not_eq_true] at hb
      exact ⟨hb.1.1, hb.1.2, hb.2⟩
    by_cases hm : emailOk form.email = true
    · rcases hfu : findUser users form with _ | u
      · have he : handleSubmit users form rm st =
            (LoginOutcome.failed "Invalid username/email or password", st) := by
          simp [handleSubmit, hb'.1, hb'.2.1, hb'.2.2, hm, hfu]
        refine ⟨?_, ?_, ?_⟩
        · rw [he]
          simp only [LoginOutcome.isSuccess]
          constructor
          · intro h; simp at h
          · rintro ⟨-, -, -, -, r5⟩
            simp at r5
        · intro a ha
          rw [he] at ha
          simp at ha
        · intro m2 hm2
          rw [he] at hm2
          simp only [LoginOutcome.failed.injEq] at hm2
          subst hm2
          rw [he]
          exact ⟨rfl, by decide⟩
      · have he : handleSubmit users form rm st =
            (LoginOutcome.success ⟨u.username, u.email, true⟩,
             if rm then { st with localAuth := some ⟨u.username, u.email, true⟩ }
             else { st with sessionAuth := some ⟨u.username, u.email, true⟩ }) := by
          simp [handleSubmit, hb'.1, hb'.2.1, hb'.2.2, hm, hfu]
        refine ⟨?_, ?_, ?_⟩
        · rw [he]
          simp only [LoginOutcome.isSuccess, true_iff]
          exact ⟨hb'.1, hb'.2.1, hb'.2.2, hm, rfl⟩
        · intro a ha
          rw [he] at ha
          simp only [LoginOutcome.success.injEq] at ha
          subst ha
          rw [he]
          exact ⟨rfl, rfl⟩
        · intro m2 hm2
          rw [he] at hm2
          simp at hm2
    · have hm' : emailOk form.email = false := by
        simp only [Bool.not_eq_true] at hm
        exact hm
      have he : handleSubmit users form rm st =
          (LoginOutcome.failed "Please enter a valid email address", st) := by
        simp [handleSubmit, hb'.1, hb'.2.1, hb'.2.2, hm']
      refine ⟨?_, ?_, ?_⟩
      · rw [he]
        simp only [LoginOutcome.isSuccess]
        constructor
        · intro h; simp at h
        · rintro ⟨-, -, -, r4, -⟩
          rw [r4] at hm'
          cases hm'
      · intro a ha
        rw [he] at ha
        simp at ha
      · intro m2 hm2
        rw [he] at hm2
        simp only [LoginOutcome.failed.injEq] at hm2
        subst hm2
        rw [he]
        exact ⟨rfl, by decide⟩

/-- Witness for C9 (amended): a registered user logging in with matching
credentials succeeds. -/
theorem handleSubmit_spec_witness :
    (handleSubmit [⟨"alice", "x@y.z", "pw"⟩] ⟨"alice", "x@y.z", "pw"⟩ true
      ⟨none, none⟩).1.isSuccess = true :=
  (handleSubmit_spec [⟨"alice", "x@y.z", "pw"⟩] ⟨"alice", "x@y.z", "pw"⟩ true
    ⟨none, none⟩).1.mpr (by decide)

lemma getAuth_eq (parse : String → Option JVal) (loc ses : Option String) :
    getAuth parse loc ses =
      match tryStore parse loc with
      | (some v, loc2) => (v, loc2, ses)
      | (none, loc2) =>
        match tryStore parse ses with
        | (some v, ses2) => (v, loc2, ses2)
        | (none, ses2) => (JVal.jnull, loc2, ses2) := rfl

lemma getAuth_fst (parse : String → Option JVal) (loc ses : Option String) :
    (getAuth parse loc ses).1 = (firstParsed parse loc ses).getD JVal.jnull := by
  rcases h1 : tryStore parse loc with ⟨_ | v, l2⟩
  · rcases h2 : tryStore parse ses with ⟨_ | w, s2⟩
    · simp [getAuth, firstParsed, h1, h2]
    · simp [getAuth, firstParsed, h1, h2]
  · simp [getAuth, firstParsed, h1]

lemma jIsTrue_field_truthy (n : String) (v : JVal)
    (h : jIsTrue (jField n v) = true) : jTruthy v = true := by
  cases v <;> simp_all [jField, jIsTrue, jTruthy]

/-- C10, counterexample to the claim as stated: with the localStorage auth
entry holding the empty string (which fails to parse as JSON: the parse
function rejects every string, as JSON.parse does on the empty string),
getAuth falls through and returns null but does NOT remove the entry,
because the code guards each store with JavaScript truthiness and an empty
string is falsy, so the parse-and-remove block is never reached. -/
theorem getAuth_claim_counterexample :
    parseNone "" = none ∧
    (getAuth parseNone (some "") none).1 = JVal.jnull ∧
    (getAuth parseNone (some "") none).2.1 = some "" :=
  ⟨rfl, rfl, rfl⟩

/-- C10 (amended): getAuth is total (never throws), consults localStorage
before sessionStorage, removes a stored NON-EMPTY auth entry that fails to
parse and falls through to the next store, leaves an absent or
empty-string entry in place (it is falsy and skipped) while still falling
through, returns null when neither store holds a non-empty parseable
entry, and isAuthenticated returns true iff the first parseable stored
auth value has an isAuthenticated property strictly equal to true. -/
theorem getAuth_spec_amended (parse : String → Option JVal)
    (loc ses : Option String) :
    (∀ s v, loc = some s → s.isEmpty = false → parse s = some v →
      getAuth parse loc ses = (v, loc, ses)) ∧
    (∀ s, loc = some s → s.isEmpty = false → parse s = none →
      (getAuth parse loc ses).2.1 = none ∧
      (getAuth parse loc ses).1 = (getAuth parse none ses).1 ∧
      (getAuth parse loc ses).2.2 = (getAuth parse none ses).2.2) ∧
    ((loc = none ∨ loc = some "") →
      (getAuth parse loc ses).2.1 = loc ∧
      (getAuth parse loc ses).1 = (getAuth parse none ses).1 ∧
      (getAuth parse loc ses).2.2 = (getAuth parse none ses).2.2) ∧
    (firstParsed parse loc ses = none →
      (getAuth parse loc ses).1 = JVal.jnull) ∧
    (isAuthenticated parse loc ses = true ↔
      ∃ v, firstParsed parse loc ses = some v ∧
        jIsTrue (jField "isAuthenticated" v) = true) := by
  refine ⟨?_, ?_, ?_, ?_, ?_⟩
  · intro s v hls hse hpv
    subst hls
    have ht : tryStore parse (some s) = (some v, some s) := by
      simp [tryStore, hse, hpv]
    rw [getAuth_eq, ht]
  · intro s hls hse hpn
    subst hls
    have ht : tryStore parse (some s) = (none, none) := by
      simp [tryStore, hse, hpn]
    have htn : tryStore parse none = ((none : Option JVal), (none : Option String)) := rfl
    rw [getAuth_eq, getAuth_eq, ht, htn]
    rcases h2 : tryStore parse ses with ⟨_ | w, s2⟩ <;>
      exact ⟨rfl, rfl, rfl⟩
  · intro hl
    have ht : tryStore parse loc = (none, loc) := by
      rcases hl with hl | hl <;> subst hl <;> rfl
    have htn : tryStore parse none = ((none : Option JVal), (none : Option String)) := rfl
    rw [getAuth_eq, getAuth_eq, ht, htn]
    rcases h2 : tryStore parse ses with ⟨_ | w, s2⟩ <;>
      exact ⟨rfl, rfl, rfl⟩
  · intro h
    rw [getAuth_fst, h]
    rfl
  · simp only [isAuthenticated]
    rw [getAuth_fst]
    rcases hf : firstParsed parse loc ses with _ | v
    · simp [jTruthy]
    · simp only [Option.getD_some]
      constructor
      · intro h
        rw [Bool.and_eq_true] at h
        exact ⟨v, rfl, h.2⟩
      · rintro ⟨w, hw, hjw⟩
        rw [Option.some.injEq] at hw
        subst hw
        rw [Bool.and_eq_true]
        exact ⟨jIsTrue_field_truthy _ _ hjw, hjw⟩

/-- Witness for C10 (amended): a parseable non-empty localStorage entry is
returned immediately with both stores untouched. -/
theorem getAuth_spec_amended_witness :
    getAuth parseW (some "ok") none =
      (JVal.jobj [("isAuthenticated", JVal.jbool true)], some "ok", none) :=
  (getAuth_spec_amended parseW (some "ok") none).1 "ok"
    (JVal.jobj [("isAuthenticated", JVal.jbool true)]) rfl rfl rfl

end AIGameTester
